import Mathlib

/-!
Shallow embedding of the Azure provider extension's config/state translation
layer (the chart-value compiler and the status extractor) and of the
control-plane webhook ensurer, together with theorems about their behaviour.
-/

namespace AzureExt

/-- Untyped nested chart-value tree: the wire format handed to the
provisioning engine (Go `map[string]interface{}` values). -/
inductive Val where
  | str : String → Val
  | bool : Bool → Val
  | nat : Nat → Val
  | strList : List String → Val
  | map : List (String × Val) → Val

/-- Association-list lookup on the entries of a map node. -/
def lookupKV : List (String × Val) → String → Option Val
  | [], _ => none
  | (k, v) :: rest, key => if k = key then some v else lookupKV rest key

/-- Fetch the value stored under a key of a map node. -/
def Val.get (v : Val) (key : String) : Option Val :=
  match v with
  | .map kvs => lookupKV kvs key
  | _ => none

/-- Fetch the value stored under a path of keys. -/
def Val.getPath : Val → List String → Option Val
  | v, [] => some v
  | v, key :: keys =>
    match v.get key with
    | some w => w.getPath keys
    | none => none

/-- Virtual-network descriptor of the infrastructure configuration: either a
network to be created (`cidr` given) or a pre-existing one (`resourceGroup`
given). -/
structure VNet where
  name : Option String
  cidr : Option String
  resourceGroup : Option String

/-- Network section of the infrastructure configuration. -/
structure NetworkConfig where
  vnet : VNet
  workers : String
  serviceEndpoints : List String

/-- Provider-specific infrastructure configuration. -/
structure InfrastructureConfig where
  networks : NetworkConfig
  zoned : Bool

/-- Azure credentials, passed through verbatim. -/
structure ClientAuth where
  tenantID : String
  clientID : String
  clientSecret : String
  subscriptionID : String

/-- The infrastructure resource: its namespace doubles as resource-group and
cluster name. -/
structure Infrastructure where
  namespaceName : String
  name : String
  region : String

/-- Cluster context: the per-region fault/update domain counts (meaningful
only for non-zoned clusters). -/
structure ClusterContext where
  countFaultDomains : Nat
  countUpdateDomains : Nat

def TerraformerOutputKeyResourceGroupName : String := "resourceGroupName"
def TerraformerOutputKeyVNetName : String := "vnetName"
def TerraformerOutputKeyVNetResourceGroup : String := "vnetResourceGroup"
def TerraformerOutputKeySubnetName : String := "subnetName"
def TerraformerOutputKeyRouteTableName : String := "routeTableName"
def TerraformerOutputKeySecurityGroupName : String := "securityGroupName"
def TerraformerOutputKeyAvailabilitySetID : String := "availabilitySetID"
def TerraformerOutputKeyAvailabilitySetName : String := "availabilitySetName"

/-- Modelled from the spec: the chart-value tree built by the compiler once
the network-ownership branch has been resolved (`createVNet` and the
virtual-network sub-tree are the branch results); sections per spec §4.1
steps 1-2 and 4-8.  The compiler implementation is not part of the source
fragment (only its tests are). -/
def chartValues (infra : Infrastructure) (auth : ClientAuth) (workers : String)
    (serviceEndpoints : List String) (zoned : Bool) (cluster : ClusterContext)
    (createVNet : Bool) (vnetTree : List (String × Val)) : Val :=
  Val.map
    [("azure", Val.map
       ([("subscriptionID", Val.str auth.subscriptionID),
         ("tenantID", Val.str auth.tenantID),
         ("region", Val.str infra.region)] ++
        (if zoned then []
         else [("countUpdateDomains", Val.nat cluster.countUpdateDomains),
               ("countFaultDomains", Val.nat cluster.countFaultDomains)]))),
     ("create", Val.map
       [("resourceGroup", Val.bool true),
        ("vnet", Val.bool createVNet),
        ("availabilitySet", Val.bool (!zoned))]),
     ("resourceGroup", Val.map
       [("name", Val.str infra.namespaceName),
        ("vnet", Val.map vnetTree),
        ("subnet", Val.map [("serviceEndpoints", Val.strList serviceEndpoints)])]),
     ("identity", Val.map [("enabled", Val.bool false)]),
     ("clusterName", Val.str infra.namespaceName),
     ("networks", Val.map [("worker", Val.str workers)]),
     ("outputKeys", Val.map
       ([("resourceGroupName", Val.str TerraformerOutputKeyResourceGroupName),
         ("vnetName", Val.str TerraformerOutputKeyVNetName)] ++
        (if createVNet then []
         else [("vnetResourceGroup", Val.str TerraformerOutputKeyVNetResourceGroup)]) ++
        [("subnetName", Val.str TerraformerOutputKeySubnetName),
         ("routeTableName", Val.str TerraformerOutputKeyRouteTableName),
         ("securityGroupName", Val.str TerraformerOutputKeySecurityGroupName)] ++
        (if zoned then []
         else [("availabilitySetID", Val.str TerraformerOutputKeyAvailabilitySetID),
               ("availabilitySetName", Val.str TerraformerOutputKeyAvailabilitySetName)])))]

/-- Modelled from the spec: `ComputeTerraformerChartValues` (spec §4.1), whose
implementation is missing from the source fragment (only its tests are
present).  A CIDR in the virtual-network descriptor selects the create
branch (sub-tree keyed by the cluster's own name with the given CIDR); a
resource group selects the reuse branch (descriptor name and resource group,
no CIDR); neither is a validation error with no partial output. -/
def ComputeTerraformerChartValues (infra : Infrastructure) (auth : ClientAuth)
    (config : InfrastructureConfig) (cluster : ClusterContext) : Except String Val :=
  match config.networks.vnet.cidr with
  | some cidr =>
    .ok (chartValues infra auth config.networks.workers config.networks.serviceEndpoints
      config.zoned cluster true
      [("name", Val.str infra.namespaceName), ("cidr", Val.str cidr)])
  | none =>
    match config.networks.vnet.resourceGroup with
    | some rg =>
      .ok (chartValues infra auth config.networks.workers config.networks.serviceEndpoints
        config.zoned cluster false
        [("name", Val.str (config.networks.vnet.name.getD "")),
         ("resourceGroup", Val.str rg)])
    | none => .error "vnet descriptor provides neither cidr nor resourceGroup"

/-- Flat output state produced by the provisioning engine. -/
structure TerraformState where
  vnetName : String
  subnetName : String
  routeTableName : String
  availabilitySetID : String
  availabilitySetName : String
  securityGroupName : String
  resourceGroupName : String

/-- A Go slice: `none` models a nil slice, `some` a non-nil (possibly empty)
one. -/
abbrev GoSlice (α : Type) := Option (List α)

structure AvailabilitySet where
  name : String
  id : String
  purpose : String
deriving DecidableEq

structure RouteTable where
  name : String
  purpose : String
deriving DecidableEq

structure SecurityGroup where
  name : String
  purpose : String
deriving DecidableEq

structure Subnet where
  name : String
  purpose : String
deriving DecidableEq

structure VNetStatus where
  name : String
deriving DecidableEq

structure NetworkStatus where
  vnet : VNetStatus
  subnets : GoSlice Subnet
deriving DecidableEq

structure TypeMeta where
  apiVersion : String
  kind : String
deriving DecidableEq

def PurposeNodes : String := "nodes"

def StatusTypeMeta : TypeMeta :=
  ⟨"azure.provider.extensions.gardener.cloud/v1alpha1", "InfrastructureStatus"⟩

/-- Typed status object persisted back onto the infrastructure resource. -/
structure InfrastructureStatus where
  typeMeta : TypeMeta
  resourceGroupName : String
  routeTables : GoSlice RouteTable
  securityGroups : GoSlice SecurityGroup
  availabilitySets : GoSlice AvailabilitySet
  networks : NetworkStatus
  zoned : Bool
deriving DecidableEq

/-- Modelled from the spec: `StatusFromTerraformState` (spec §4.2), whose
implementation is missing from the source fragment (only its tests are
present).  All list fields are initialised to non-nil slices; the
availability-set list is a singleton exactly when the state's
availability-set ID is non-empty; the zoned flag is copied from the config. -/
def StatusFromTerraformState (state : TerraformState) (config : InfrastructureConfig) :
    InfrastructureStatus :=
  { typeMeta := StatusTypeMeta
    resourceGroupName := state.resourceGroupName
    routeTables := some [⟨state.routeTableName, PurposeNodes⟩]
    securityGroups := some [⟨state.securityGroupName, PurposeNodes⟩]
    availabilitySets :=
      if state.availabilitySetID = "" then some []
      else some [⟨state.availabilitySetName, state.availabilitySetID, PurposeNodes⟩]
    networks := ⟨⟨state.vnetName⟩, some [⟨state.subnetName, PurposeNodes⟩]⟩
    zoned := config.zoned }

/-- A mount of a volume into a container (`corev1.VolumeMount`, the fields
used by the ensurer). -/
structure VolumeMount where
  name : String
  mountPath : String
  readOnly : Bool
deriving DecidableEq

/-- The volume sources the ensurer uses (`corev1.VolumeSource`, restricted
to the two cases that occur). -/
inductive VolumeSource where
  | hostPath (path : String)
  | configMap (name : String)
deriving DecidableEq

/-- A pod volume (`corev1.Volume`, the fields used by the ensurer). -/
structure Volume where
  name : String
  source : VolumeSource
deriving DecidableEq

def CloudProviderConfigName : String := "cloud-provider-config"
def CloudProviderKubeletConfigName : String := "cloud-provider-config-kubelet"
def CloudProviderConfigMapKey : String := "cloudprovider.conf"

def etcSSLName : String := "etc-ssl"

def etcSSLVolumeMount : VolumeMount := ⟨etcSSLName, "/etc/ssl", true⟩

def etcSSLVolume : Volume := ⟨etcSSLName, .hostPath "/etc/ssl"⟩

def cloudProviderConfigVolumeMount : VolumeMount :=
  ⟨CloudProviderConfigName, "/etc/kubernetes/cloudprovider", false⟩

def cloudProviderConfigVolume : Volume :=
  ⟨CloudProviderConfigName, .configMap CloudProviderConfigName⟩

/-- Version-string normalisation of the gardener version utilities used by
`mustMountEtcSSLFolder`: every `v` character is removed and the string is
truncated at the first `-` or `+`. -/
def normalizeVersion (version : String) : List Char :=
  (version.toList.filter (fun c => c ≠ 'v')).takeWhile
    (fun c => c ≠ '-' ∧ c ≠ '+')

/-- Split a character list on the dot character. -/
def splitDot : List Char → List (List Char)
  | [] => [[]]
  | c :: rest =>
    if c = '.' then [] :: splitDot rest
    else
      match splitDot rest with
      | [] => [[c]]
      | part :: parts => (c :: part) :: parts

/-- Parse a non-empty all-digit character list as a decimal number. -/
def decDigits : List Char → Nat → Option Nat
  | [], acc => some acc
  | c :: rest, acc =>
    if c.isDigit then decDigits rest (acc * 10 + (c.toNat - 48)) else none

/-- Parse a version component: non-empty and all digits. -/
def decNat? (cs : List Char) : Option Nat :=
  match cs with
  | [] => none
  | _ => decDigits cs 0

/-- Semantic-version parse used by the gardener `CompareVersions` helper: one
to three dot-separated decimal components, missing components read as zero;
anything else is a parse error (`none`). -/
def parseSemVer (cs : List Char) : Option (Nat × Nat × Nat) :=
  match splitDot cs with
  | [a] => (decNat? a).map fun x => (x, 0, 0)
  | [a, b] =>
    match decNat? a, decNat? b with
    | some x, some y => some (x, y, 0)
    | _, _ => none
  | [a, b, c] =>
    match decNat? a, decNat? b, decNat? c with
    | some x, some y, some z => some (x, y, z)
    | _, _, _ => none
  | _ => none

/-- Lexicographic `≥` on parsed semantic versions. -/
def semverAtLeast (a b : Nat × Nat × Nat) : Bool :=
  if a.1 ≠ b.1 then decide (b.1 < a.1)
  else if a.2.1 ≠ b.2.1 then decide (b.2.1 < a.2.1)
  else decide (b.2.2 ≤ a.2.2)

/-- `versionutils.CompareVersions(v1, ">=", v2)` of the gardener dependency:
both sides are normalised and parsed; a parse failure on either side is an
error, otherwise the lexicographic comparison is returned. -/
def compareVersionsGE (version1 version2 : String) : Except String Bool :=
  match parseSemVer (normalizeVersion version1), parseSemVer (normalizeVersion version2) with
  | some a, some b => .ok (semverAtLeast a b)
  | _, _ => .error "invalid semantic version"

/-- `mustMountEtcSSLFolder` of `pkg/webhook/controlplane/ensurer.go`: true
when the version compares as at least 1.17; a comparison error is swallowed
and yields false. -/
def mustMountEtcSSLFolder (version : String) : Bool :=
  match compareVersionsGE version "1.17" with
  | .error _ => false
  | .ok b => b

/-- `extensionswebhook.EnsureVolumeWithName` of the gardener-extensions
dependency: replace the volume with the same name, or append. -/
def ensureVolumeWithName : List Volume → Volume → List Volume
  | [], v => [v]
  | w :: ws, v => if w.name = v.name then v :: ws else w :: ensureVolumeWithName ws v

/-- `extensionswebhook.EnsureVolumeMountWithName` of the gardener-extensions
dependency: replace the mount with the same name, or append. -/
def ensureVolumeMountWithName : List VolumeMount → VolumeMount → List VolumeMount
  | [], v => [v]
  | w :: ws, v => if w.name = v.name then v :: ws else w :: ensureVolumeMountWithName ws v

/-- `ensureVolumeMounts` of `ensurer.go`: always ensure the cloud-provider
config mount; additionally ensure the read-only etc-ssl mount when
`mustMountEtcSSLFolder` holds. -/
def ensureVolumeMounts (mounts : List VolumeMount) (version : String) : List VolumeMount :=
  let ms := ensureVolumeMountWithName mounts cloudProviderConfigVolumeMount
  if mustMountEtcSSLFolder version then ensureVolumeMountWithName ms etcSSLVolumeMount
  else ms

/-- `ensureVolumes` of `ensurer.go`: always ensure the cloud-provider config
volume; additionally ensure the etc-ssl host-path volume when
`mustMountEtcSSLFolder` holds. -/
def ensureVolumes (volumes : List Volume) (version : String) : List Volume :=
  let vs := ensureVolumeWithName volumes cloudProviderConfigVolume
  if mustMountEtcSSLFolder version then ensureVolumeWithName vs etcSSLVolume
  else vs

/-- Result of the Kubernetes client `Get` of a ConfigMap: not found, some
other error, or found with a possibly nil data map (association list). -/
inductive GetResult where
  | notFound
  | otherErr (msg : String)
  | found (data : Option (List (String × String)))

/-- `EnsureKubeletCloudProviderConfig` of `ensurer.go`, with the Kubernetes
client abstracted as a function from namespace and ConfigMap name to a
`GetResult`.  The return value pairs the error (`none` for nil) with the
final value of `*data`. -/
def EnsureKubeletCloudProviderConfig (client : String → String → GetResult)
    (ns : String) (data : String) : Option String × String :=
  match client ns CloudProviderKubeletConfigName with
  | .notFound => (none, data)
  | .otherErr msg =>
    (some ("could not get configmap " ++ ns ++ "/" ++ CloudProviderKubeletConfigName
      ++ ": " ++ msg), data)
  | .found d =>
    let v := ((d.getD []).lookup CloudProviderConfigMapKey).getD ""
    if v = "" then (none, data) else (none, v)

theorem compute_ok_cases (infra : Infrastructure) (auth : ClientAuth)
    (config : InfrastructureConfig) (cluster : ClusterContext) (v : Val)
    (h : ComputeTerraformerChartValues infra auth config cluster = Except.ok v) :
    (∃ c, config.networks.vnet.cidr = some c ∧
       v = chartValues infra auth config.networks.workers config.networks.serviceEndpoints
             config.zoned cluster true
             [("name", Val.str infra.namespaceName), ("cidr", Val.str c)])
  ∨ (config.networks.vnet.cidr = none ∧
     ∃ rg, config.networks.vnet.resourceGroup = some rg ∧
       v = chartValues infra auth config.networks.workers config.networks.serviceEndpoints
             config.zoned cluster false
             [("name", Val.str (config.networks.vnet.name.getD "")),
              ("resourceGroup", Val.str rg)]) := by
  cases hc : config.networks.vnet.cidr with
  | some c =>
    left
    refine ⟨c, rfl, ?_⟩
    simp only [ComputeTerraformerChartValues, hc] at h
    exact (Except.ok.inj h).symm
  | none =>
    right
    cases hr : config.networks.vnet.resourceGroup with
    | some rg =>
      refine ⟨rfl, rg, rfl, ?_⟩
      simp only [ComputeTerraformerChartValues, hc, hr] at h
      exact (Except.ok.inj h).symm
    | none =>
      exfalso
      simp [ComputeTerraformerChartValues, hc, hr] at h

/-- C1: whenever the virtual-network descriptor carries a CIDR, the compiler
succeeds with `create.vnet = true`, a `resourceGroup.vnet` sub-tree keyed by
the infrastructure resource's namespace (the cluster's own name) paired with
the given CIDR, and no virtual-network resource-group output key. -/
theorem chart_new_vnet_create (infra : Infrastructure) (auth : ClientAuth)
    (config : InfrastructureConfig) (cluster : ClusterContext) (c : String)
    (hc : config.networks.vnet.cidr = some c) :
    ∃ v, ComputeTerraformerChartValues infra auth config cluster = Except.ok v
      ∧ v.getPath ["create", "vnet"] = some (Val.bool true)
      ∧ v.getPath ["resourceGroup", "vnet"]
          = some (Val.map [("name", Val.str infra.namespaceName), ("cidr", Val.str c)])
      ∧ v.getPath ["outputKeys", "vnetResourceGroup"] = none := by
  simp only [ComputeTerraformerChartValues, hc]
  refine ⟨_, rfl, rfl, rfl, ?_⟩
  cases hz : config.zoned <;> rfl

/-- C2: whenever the virtual-network descriptor carries a resource group and
no CIDR, the compiler succeeds with `create.vnet = false`, a
`resourceGroup.vnet` sub-tree holding the descriptor's own name and resource
group with no cidr key, and a virtual-network resource-group output key. -/
theorem chart_existing_vnet_reuse (infra : Infrastructure) (auth : ClientAuth)
    (config : InfrastructureConfig) (cluster : ClusterContext) (n rg : String)
    (hc : config.networks.vnet.cidr = none)
    (hn : config.networks.vnet.name = some n)
    (hr : config.networks.vnet.resourceGroup = some rg) :
    ∃ v, ComputeTerraformerChartValues infra auth config cluster = Except.ok v
      ∧ v.getPath ["create", "vnet"] = some (Val.bool false)
      ∧ v.getPath ["resourceGroup", "vnet"]
          = some (Val.map [("name", Val.str n), ("resourceGroup", Val.str rg)])
      ∧ v.getPath ["resourceGroup", "vnet", "cidr"] = none
      ∧ (v.getPath ["outputKeys", "vnetResourceGroup"]).isSome = true := by
  simp only [ComputeTerraformerChartValues, hc, hr, hn, Option.getD_some]
  exact ⟨_, rfl, rfl, rfl, rfl, rfl⟩

/-- C7: a virtual-network descriptor with neither a CIDR nor a resource group
makes the compiler fail with a validation error and no partial output. -/
theorem chart_vnet_contradiction_error (infra : Infrastructure) (auth : ClientAuth)
    (config : InfrastructureConfig) (cluster : ClusterContext)
    (hc : config.networks.vnet.cidr = none)
    (hr : config.networks.vnet.resourceGroup = none) :
    ∃ msg, ComputeTerraformerChartValues infra auth config cluster = Except.error msg := by
  simp only [ComputeTerraformerChartValues, hc, hr]
  exact ⟨_, rfl⟩

/-- C3: on every successful compile, a zoned config yields no fault/update
domain counts under the azure section and `create.availabilitySet = false`,
while a non-zoned config yields both counts and the flag true. -/
theorem chart_zoned_symmetry (infra : Infrastructure) (auth : ClientAuth)
    (config : InfrastructureConfig) (cluster : ClusterContext) (v : Val)
    (h : ComputeTerraformerChartValues infra auth config cluster = Except.ok v) :
    (config.zoned = true →
        v.getPath ["azure", "countFaultDomains"] = none
      ∧ v.getPath ["azure", "countUpdateDomains"] = none
      ∧ v.getPath ["create", "availabilitySet"] = some (Val.bool false))
  ∧ (config.zoned = false →
        v.getPath ["azure", "countFaultDomains"] = some (Val.nat cluster.countFaultDomains)
      ∧ v.getPath ["azure", "countUpdateDomains"] = some (Val.nat cluster.countUpdateDomains)
      ∧ v.getPath ["create", "availabilitySet"] = some (Val.bool true)) := by
  rcases compute_ok_cases infra auth config cluster v h with
    ⟨c, _, hv⟩ | ⟨_, rg, _, hv⟩ <;>
    subst hv <;>
    exact ⟨fun hz => by rw [hz]; exact ⟨rfl, rfl, rfl⟩,
           fun hz => by rw [hz]; exact ⟨rfl, rfl, rfl⟩⟩

/-- C4: on every successful compile, the output-key catalog holds the five
base keys; it holds the availability-set ID and name keys exactly when the
cluster is non-zoned, and the virtual-network resource-group key exactly when
an existing virtual network is reused (no CIDR, resource group given). -/
theorem chart_output_key_catalog (infra : Infrastructure) (auth : ClientAuth)
    (config : InfrastructureConfig) (cluster : ClusterContext) (v : Val)
    (h : ComputeTerraformerChartValues infra auth config cluster = Except.ok v) :
    ((v.getPath ["outputKeys", "resourceGroupName"]).isSome = true
   ∧ (v.getPath ["outputKeys", "vnetName"]).isSome = true
   ∧ (v.getPath ["outputKeys", "subnetName"]).isSome = true
   ∧ (v.getPath ["outputKeys", "routeTableName"]).isSome = true
   ∧ (v.getPath ["outputKeys", "securityGroupName"]).isSome = true)
  ∧ ((v.getPath ["outputKeys", "availabilitySetID"]).isSome = true ↔ config.zoned = false)
  ∧ ((v.getPath ["outputKeys", "availabilitySetName"]).isSome = true ↔ config.zoned = false)
  ∧ ((v.getPath ["outputKeys", "vnetResourceGroup"]).isSome = true ↔
       (config.networks.vnet.cidr = none ∧ config.networks.vnet.resourceGroup.isSome = true)) := by
  rcases compute_ok_cases infra auth config cluster v h with
    ⟨c, hc, hv⟩ | ⟨hc, rg, hr, hv⟩ <;> subst hv
  · cases hz : config.zoned <;>
      refine ⟨⟨rfl, rfl, rfl, rfl, rfl⟩, ?_, ?_, ?_⟩ <;>
      simp [hc, Val.getPath, Val.get, chartValues, lookupKV]
  · cases hz : config.zoned <;>
      refine ⟨⟨rfl, rfl, rfl, rfl, rfl⟩, ?_, ?_, ?_⟩ <;>
      simp [hc, hr, Val.getPath, Val.get, chartValues, lookupKV]

/-- C5: on the full terraform state of the non-zoned round-trip scenario the
extractor yields exactly one availability-set entry with name as_name, id
as_id and purpose nodes, the zoned flag false, the resource group, the
single-element nodes route-table, security-group and subnet lists, and the
virtual-network name taken from the state. -/
theorem status_non_zoned_round_trip :
    StatusFromTerraformState
      ⟨"vnet_name", "subnet_name", "routTable_name", "as_id", "as_name", "sg_name", "rg_name"⟩
      ⟨⟨⟨none, none, none⟩, "", []⟩, false⟩
    = { typeMeta := StatusTypeMeta
        resourceGroupName := "rg_name"
        routeTables := some [⟨"routTable_name", "nodes"⟩]
        securityGroups := some [⟨"sg_name", "nodes"⟩]
        availabilitySets := some [⟨"as_name", "as_id", "nodes"⟩]
        networks := ⟨⟨"vnet_name"⟩, some [⟨"subnet_name", "nodes"⟩]⟩
        zoned := false } := by
  decide

/-- C6: for every terraform state the extractor emits a one-element
availability-set list exactly when the state's availability-set ID is
non-empty and an empty list otherwise, with no error path; in particular a
state with empty availability-set fields under a zoned config yields an
empty availability-set list and the zoned flag true. -/
theorem status_availability_soft_missing (state : TerraformState)
    (config : InfrastructureConfig) :
    (state.availabilitySetID ≠ "" →
        (StatusFromTerraformState state config).availabilitySets
          = some [⟨state.availabilitySetName, state.availabilitySetID, PurposeNodes⟩])
  ∧ (state.availabilitySetID = "" →
        (StatusFromTerraformState state config).availabilitySets = some [])
  ∧ ((StatusFromTerraformState
        { state with availabilitySetID := "", availabilitySetName := "" }
        { config with zoned := true }).availabilitySets = some []
    ∧ (StatusFromTerraformState
        { state with availabilitySetID := "", availabilitySetName := "" }
        { config with zoned := true }).zoned = true) := by
  refine ⟨fun h => ?_, fun h => ?_, rfl, rfl⟩
  · simp [StatusFromTerraformState, h]
  · simp [StatusFromTerraformState, h]

/-- C8: every list field of the status returned by the extractor (route
tables, security groups, availability sets, subnets) is a non-nil slice. -/
theorem status_lists_never_nil (state : TerraformState) (config : InfrastructureConfig) :
    (StatusFromTerraformState state config).routeTables.isSome = true
  ∧ (StatusFromTerraformState state config).securityGroups.isSome = true
  ∧ (StatusFromTerraformState state config).availabilitySets.isSome = true
  ∧ (StatusFromTerraformState state config).networks.subnets.isSome = true := by
  refine ⟨rfl, rfl, ?_, rfl⟩
  by_cases h : state.availabilitySetID = "" <;> simp [StatusFromTerraformState, h]

theorem mem_ensureVolumeWithName (l : List Volume) (v : Volume) :
    v ∈ ensureVolumeWithName l v := by
  induction l with
  | nil => simp [ensureVolumeWithName]
  | cons w ws ih =>
    by_cases h : w.name = v.name <;> simp [ensureVolumeWithName, h, ih]

theorem mem_ensureVolumeMountWithName (l : List VolumeMount) (v : VolumeMount) :
    v ∈ ensureVolumeMountWithName l v := by
  induction l with
  | nil => simp [ensureVolumeMountWithName]
  | cons w ws ih =>
    by_cases h : w.name = v.name <;> simp [ensureVolumeMountWithName, h, ih]

theorem ensureVolumeWithName_no_new_name (l : List Volume) (v : Volume) (n : String)
    (hv : v.name ≠ n) (hl : ∀ w ∈ l, w.name ≠ n) :
    ∀ w ∈ ensureVolumeWithName l v, w.name ≠ n := by
  induction l with
  | nil =>
    intro w hw
    simp [ensureVolumeWithName] at hw
    simpa [hw] using hv
  | cons x xs ih =>
    intro w hw
    by_cases h : x.name = v.name
    · simp [ensureVolumeWithName, h] at hw
      rcases hw with hw | hw
      · simpa [hw] using hv
      · exact hl w (List.mem_cons_of_mem x hw)
    · simp [ensureVolumeWithName, h] at hw
      rcases hw with hw | hw
      · exact hl w (by simp [hw])
      · exact ih (fun u hu => hl u (List.mem_cons_of_mem x hu)) w hw

theorem ensureVolumeMountWithName_no_new_name (l : List VolumeMount) (v : VolumeMount)
    (n : String) (hv : v.name ≠ n) (hl : ∀ w ∈ l, w.name ≠ n) :
    ∀ w ∈ ensureVolumeMountWithName l v, w.name ≠ n := by
  induction l with
  | nil =>
    intro w hw
    simp [ensureVolumeMountWithName] at hw
    simpa [hw] using hv
  | cons x xs ih =>
    intro w hw
    by_cases h : x.name = v.name
    · simp [ensureVolumeMountWithName, h] at hw
      rcases hw with hw | hw
      · simpa [hw] using hv
      · exact hl w (List.mem_cons_of_mem x hw)
    · simp [ensureVolumeMountWithName, h] at hw
      rcases hw with hw | hw
      · exact hl w (by simp [hw])
      · exact ih (fun u hu => hl u (List.mem_cons_of_mem x hu)) w hw

/-- C9: the etc-ssl host-path volume and its read-only mount are ensured
exactly when the version compares as at least 1.17; a version that fails to
parse makes `mustMountEtcSSLFolder` false (the error is swallowed), so
nothing etc-ssl named is added and no error is reported. -/
theorem ensure_etc_ssl_iff_version_at_least_117
    (volumes : List Volume) (mounts : List VolumeMount) (version : String) :
    (mustMountEtcSSLFolder version = true ↔
        compareVersionsGE version "1.17" = Except.ok true)
  ∧ (parseSemVer (normalizeVersion version) = none → mustMountEtcSSLFolder version = false)
  ∧ (mustMountEtcSSLFolder version = true →
        etcSSLVolume ∈ ensureVolumes volumes version
      ∧ etcSSLVolumeMount ∈ ensureVolumeMounts mounts version)
  ∧ (mustMountEtcSSLFolder version = false →
        ((∀ w ∈ volumes, w.name ≠ etcSSLName) →
          ∀ w ∈ ensureVolumes volumes version, w.name ≠ etcSSLName)
      ∧ ((∀ m ∈ mounts, m.name ≠ etcSSLName) →
          ∀ m ∈ ensureVolumeMounts mounts version, m.name ≠ etcSSLName)) := by
  refine ⟨?_, ?_, ?_, ?_⟩
  · unfold mustMountEtcSSLFolder
    cases hcv : compareVersionsGE version "1.17" with
    | error e => simp
    | ok b => cases b <;> simp
  · intro hp
    simp [mustMountEtcSSLFolder, compareVersionsGE, hp]
  · intro hm
    constructor
    · unfold ensureVolumes
      rw [hm]
      simp only [if_true]
      exact mem_ensureVolumeWithName _ _
    · unfold ensureVolumeMounts
      rw [hm]
      simp only [if_true]
      exact mem_ensureVolumeMountWithName _ _
  · intro hm
    constructor
    · intro hall
      unfold ensureVolumes
      rw [hm]
      simp only [if_false]
      exact ensureVolumeWithName_no_new_name _ _ _ (by decide) hall
    · intro hall
      unfold ensureVolumeMounts
      rw [hm]
      simp only [if_false]
      exact ensureVolumeMountWithName_no_new_name _ _ _ (by decide) hall

/-- C10: the kubelet cloud-provider-config ensurer returns no error and
leaves the data untouched when the ConfigMap is absent, its data map is nil,
or it lacks a non-empty cloudprovider.conf entry; the data is overwritten
only by a non-empty cloudprovider.conf value, and a not-found error is never
propagated. -/
theorem ensure_kubelet_cloud_provider_config_frame
    (client : String → String → GetResult) (ns : String) (data : String) :
    (client ns CloudProviderKubeletConfigName = GetResult.notFound →
        EnsureKubeletCloudProviderConfig client ns data = (none, data))
  ∧ (client ns CloudProviderKubeletConfigName = GetResult.found none →
        EnsureKubeletCloudProviderConfig client ns data = (none, data))
  ∧ (∀ m, client ns CloudProviderKubeletConfigName = GetResult.found (some m) →
        ((m.lookup CloudProviderConfigMapKey).getD "" = "" →
            EnsureKubeletCloudProviderConfig client ns data = (none, data))
      ∧ (∀ conf, m.lookup CloudProviderConfigMapKey = some conf → conf ≠ "" →
            EnsureKubeletCloudProviderConfig client ns data = (none, conf)))
  ∧ ((EnsureKubeletCloudProviderConfig client ns data).2 ≠ data →
        ∃ m, client ns CloudProviderKubeletConfigName = GetResult.found (some m)
          ∧ (m.lookup CloudProviderConfigMapKey).getD "" ≠ ""
          ∧ (EnsureKubeletCloudProviderConfig client ns data).2
              = (m.lookup CloudProviderConfigMapKey).getD "") := by
  refine ⟨?_, ?_, ?_, ?_⟩
  · intro h; simp [EnsureKubeletCloudProviderConfig, h]
  · intro h; simp [EnsureKubeletCloudProviderConfig, h]
  · intro m h
    constructor
    · intro hv; simp [EnsureKubeletCloudProviderConfig, h, hv]
    · intro conf hconf hne
      simp [EnsureKubeletCloudProviderConfig, h, hconf, hne]
  · intro hchanged
    cases hres : client ns CloudProviderKubeletConfigName with
    | notFound => simp [EnsureKubeletCloudProviderConfig, hres] at hchanged
    | otherErr msg => simp [EnsureKubeletCloudProviderConfig, hres] at hchanged
    | found d =>
      cases d with
      | none => simp [EnsureKubeletCloudProviderConfig, hres] at hchanged
      | some m =>
        refine ⟨m, rfl, ?_, ?_⟩
        · intro hv
          simp [EnsureKubeletCloudProviderConfig, hres, hv] at hchanged
        · by_cases hv : (m.lookup CloudProviderConfigMapKey).getD "" = ""
          · simp [EnsureKubeletCloudProviderConfig, hres, hv] at hchanged
          · simp [EnsureKubeletCloudProviderConfig, hres, hv]

def testInfra : Infrastructure := ⟨"bar", "bar", "eu-west-1"⟩

def testAuth : ClientAuth := ⟨"tenant_id", "client_id", "client_secret", "subscription_id"⟩

def testCluster : ClusterContext := ⟨1, 2⟩

def testConfigNew (zoned : Bool) : InfrastructureConfig :=
  ⟨⟨⟨some "vnet", some "10.1.0.0/16", none⟩, "10.1.0.0/16", ["Microsoft.Test"]⟩, zoned⟩

def testConfigExisting : InfrastructureConfig :=
  ⟨⟨⟨some "test", none, some "test-rg"⟩, "10.1.0.0/16", ["Microsoft.Test"]⟩, true⟩

def testChartNew (zoned : Bool) : Val :=
  chartValues testInfra testAuth "10.1.0.0/16" ["Microsoft.Test"] zoned testCluster true
    [("name", Val.str "bar"), ("cidr", Val.str "10.1.0.0/16")]

def testChartExisting : Val :=
  chartValues testInfra testAuth "10.1.0.0/16" ["Microsoft.Test"] true testCluster false
    [("name", Val.str "test"), ("resourceGroup", Val.str "test-rg")]

def testState : TerraformState :=
  ⟨"vnet_name", "subnet_name", "routTable_name", "as_id", "as_name", "sg_name", "rg_name"⟩

theorem chart_new_vnet_create_witness :
    ∃ v, ComputeTerraformerChartValues testInfra testAuth (testConfigNew true) testCluster
        = Except.ok v
      ∧ v.getPath ["create", "vnet"] = some (Val.bool true)
      ∧ v.getPath ["resourceGroup", "vnet"]
          = some (Val.map [("name", Val.str "bar"), ("cidr", Val.str "10.1.0.0/16")])
      ∧ v.getPath ["outputKeys", "vnetResourceGroup"] = none :=
  chart_new_vnet_create testInfra testAuth (testConfigNew true) testCluster "10.1.0.0/16" rfl

theorem chart_existing_vnet_reuse_witness :
    ∃ v, ComputeTerraformerChartValues testInfra testAuth testConfigExisting testCluster
        = Except.ok v
      ∧ v.getPath ["create", "vnet"] = some (Val.bool false)
      ∧ v.getPath ["resourceGroup", "vnet"]
          = some (Val.map [("name", Val.str "test"), ("resourceGroup", Val.str "test-rg")])
      ∧ v.getPath ["resourceGroup", "vnet", "cidr"] = none
      ∧ (v.getPath ["outputKeys", "vnetResourceGroup"]).isSome = true :=
  chart_existing_vnet_reuse testInfra testAuth testConfigExisting testCluster
    "test" "test-rg" rfl rfl rfl

theorem chart_zoned_symmetry_witness :
    (testChartNew false).getPath ["azure", "countFaultDomains"]
      = some (Val.nat testCluster.countFaultDomains) :=
  ((chart_zoned_symmetry testInfra testAuth (testConfigNew false) testCluster
    (testChartNew false) rfl).2 rfl).1

theorem chart_output_key_catalog_witness :
    (testChartExisting.getPath ["outputKeys", "vnetResourceGroup"]).isSome = true :=
  ((chart_output_key_catalog testInfra testAuth testConfigExisting testCluster
    testChartExisting rfl).2.2.2).mpr ⟨rfl, rfl⟩

theorem status_availability_soft_missing_witness :
    (StatusFromTerraformState testState (testConfigNew false)).availabilitySets
      = some [⟨"as_name", "as_id", PurposeNodes⟩] :=
  (status_availability_soft_missing testState (testConfigNew false)).1 (by decide)

theorem chart_vnet_contradiction_error_witness :
    ∃ msg, ComputeTerraformerChartValues testInfra testAuth
      ⟨⟨⟨some "vnet", none, none⟩, "10.1.0.0/16", []⟩, true⟩ testCluster
      = Except.error msg :=
  chart_vnet_contradiction_error testInfra testAuth
    ⟨⟨⟨some "vnet", none, none⟩, "10.1.0.0/16", []⟩, true⟩ testCluster rfl rfl

theorem ensure_etc_ssl_iff_version_at_least_117_witness :
    etcSSLVolume ∈ ensureVolumes [] "1.17"
  ∧ etcSSLVolumeMount ∈ ensureVolumeMounts [] "1.17" :=
  (ensure_etc_ssl_iff_version_at_least_117 [] [] "1.17").2.2.1 rfl

theorem ensure_kubelet_cloud_provider_config_frame_witness :
    EnsureKubeletCloudProviderConfig
      (fun _ _ => GetResult.found (some [("cloudprovider.conf", "conf")])) "shoot-ns" "old"
      = (none, "conf") :=
  ((ensure_kubelet_cloud_provider_config_frame
      (fun _ _ => GetResult.found (some [("cloudprovider.conf", "conf")])) "shoot-ns" "old").2.2.1
    [("cloudprovider.conf", "conf")] rfl).2 "conf" rfl (by decide)

end AzureExt
